import Mathlib

/-!
Shallow embedding of `src/crl_health_check.py` (CRL lifecycle classifier and
multi-sink reporting pipeline).

Modelling conventions:
* UTC datetimes are embedded as `Int` epoch seconds (timezone-aware UTC
  datetimes are totally ordered, and that order coincides with the epoch-second
  order); `timedelta(days=3)` is `259200` seconds.  Rendering a datetime into an
  f-string is abstracted to `toString` of its epoch value.
* The filesystem touched by the sinks is the explicit state `FS`: the log file
  `C:/PKI/crl_monitoring.txt` (`logFile`, with `logDir` for its parent
  directory) and the Prometheus textfile
  `C:/Program Files/windows_exporter/textfile_input/crl_status.txt`
  (`promFile` / `promDir`).  `none` means the file does not exist.  `open(p,'a')`
  and `open(p,'w+')` raise `FileNotFoundError` exactly when the parent
  directory is missing, and create the file otherwise; `os.makedirs` creates
  the directory.  The Windows event log is the append-only list `events`.
* Python strings are Lean `String`s; `str.replace` is embedded on `List Char`
  by `pyReplace` (left-to-right, non-overlapping, replacement by the empty
  string as in the source).
* Local variables of `validate_crl` that may be unbound at the shared sink
  tail (lines 218-228 of the source) are modelled by the environment `Env`
  with `Option` fields; referencing an unbound one raises
  `PyErr.nameError`, aborting the run with no further filesystem effect.
* The HTTP fetch and the DER decode are collaborators: a run takes the HTTP
  status code and the decoded `CRLData` (last-update, next-update, and the
  optional vendor Next Publish extension value) as inputs.
-/

/-- Result of decoding the fetched CRL (the decode collaborator's output):
`last_update_utc`, `next_update_utc`, and the value of the vendor
"CRL Next Publish" extension (OID 1.3.6.1.4.1.311.21.4) when present. -/
structure CRLData where
  last_update : Int
  next_update : Int
  next_publish : Option Int
deriving DecidableEq

/-- Severity class of a Windows event (`win32evtlog` event types). -/
inductive EvType where
  | info
  | warning
  | error
deriving DecidableEq

/-- The on-disk state the three sinks touch: the monitoring log file and its
parent directory, the Prometheus textfile and its parent directory, and the
platform event log (append-only list of eventID, severity, message). -/
structure FS where
  logFile : Option String
  logDir : Bool
  promFile : Option String
  promDir : Bool
  events : List (Int × EvType × String)
deriving DecidableEq

/-- A Python exception that can abort the run (the only one the embedded
fragment can raise is `NameError`, from referencing an unbound local). -/
inductive PyErr where
  | nameError
deriving DecidableEq

/-- Trace marker for each externally visible step of a run. -/
inductive SinkOp where
  | fetch
  | decode
  | logWrite
  | promClear
  | promWrite
  | eventReport
deriving DecidableEq

/-- Decides whether `pat` is a prefix of `s` (character lists). -/
def isPre (pat s : List Char) : Bool :=
  match pat, s with
  | [], _ => true
  | _ :: _, [] => false
  | a :: ps, b :: ss => a == b && isPre ps ss

/-- Decides whether `pat` occurs as a contiguous substring of `s`. -/
def occurs (pat s : List Char) : Bool :=
  match s with
  | [] => isPre pat []
  | _ :: rest => isPre pat s || occurs pat rest

/-- Worker for `pyReplace`: the first argument counts characters still to be
skipped because they belong to an occurrence already consumed. -/
def pyReplaceAux (pat : List Char) : Nat → List Char → List Char
  | _, [] => []
  | 0, c :: rest =>
    if isPre pat (c :: rest) = true then pyReplaceAux pat (pat.length - 1) rest
    else c :: pyReplaceAux pat 0 rest
  | Nat.succ k, _ :: rest => pyReplaceAux pat k rest

/-- Embedding of Python `s.replace(pat, "")` on character lists: scan left to
right; at each position, if `pat` matches, drop it and continue after the
match, otherwise keep the character.  (The source only ever uses the
non-empty pattern ".crl".) -/
def pyReplace (pat s : List Char) : List Char :=
  pyReplaceAux pat 0 s

theorem pyReplaceAux_skip (pat : List Char) : ∀ (s : List Char) (k : Nat),
    pyReplaceAux pat k s = pyReplaceAux pat 0 (List.drop k s) := by
  intro s
  induction s with
  | nil =>
    intro k
    simp [pyReplaceAux]
  | cons c rest ih =>
    intro k
    cases k with
    | zero => simp
    | succ k =>
      simp only [pyReplaceAux, List.drop_succ_cons]
      exact ih k

theorem pyReplace_nil (pat : List Char) : pyReplace pat [] = [] := rfl

theorem pyReplace_cons (pat : List Char) (c : Char) (rest : List Char) :
    pyReplace pat (c :: rest) =
      if isPre pat (c :: rest) = true then pyReplace pat (List.drop (pat.length - 1) rest)
      else c :: pyReplace pat rest := by
  show pyReplaceAux pat 0 (c :: rest) = _
  simp only [pyReplaceAux]
  rw [pyReplaceAux_skip pat rest (pat.length - 1)]
  rfl

/-- The CRL file extension stripped by the metrics sink. -/
def crlExt : List Char := String.toList ".crl"

/-- Line 100 of the source: `crl_file.replace(".crl", "")`. -/
def sanitize (s : String) : String :=
  String.mk (pyReplace crlExt s.toList)

/-- `datetime_to_unix` from the source: `int(date.timestamp())`.  Dates are
already embedded as epoch seconds, so this is the identity on the model. -/
def datetime_to_unix (date : Int) : Int :=
  date

/-- `clear_PROM_log` from the source: `open(path, 'w+')` truncates (creating
the file when only the file is missing); when the parent directory is missing
the open raises `FileNotFoundError`, which the handler answers with
`os.makedirs` alone — the file is neither created nor truncated then. -/
def clear_PROM_log (fs : FS) : FS :=
  if fs.promDir then
    { fs with promFile := some "" }
  else
    { fs with promDir := true }

/-- The Prometheus block written per run (the f-string of `write_PROM_log`):
HELP/TYPE headers and four gauge lines keyed by the sanitized CRL name. -/
def prom_log_format (crl_file : String) (creation overlapping expiration status_code : Int) :
    String :=
  "\n# HELP crl_status Provides a viewpoint about the CRL\n# TYPE crl_status gauge\ncrl_status\x7bcrl_name=\"" ++ crl_file ++ "\"\x7d " ++ toString status_code ++
  "\ncrl_creation_date\x7bcrl_name=\"" ++ crl_file ++ "\"\x7d " ++ toString creation ++
  "\ncrl_overlapping_date\x7bcrl_name=\"" ++ crl_file ++ "\"\x7d " ++ toString overlapping ++
  "\ncrl_expiration_date\x7bcrl_name=\"" ++ crl_file ++ "\"\x7d " ++ toString expiration ++ "\n"

/-- `write_PROM_log` from the source: sanitize the name, then append the block
with `open(path, 'a+')`; on `FileNotFoundError` (parent directory missing)
create the directory and append to the then-fresh file. -/
def write_PROM_log (crl_file : String)
    (creation_date_timestamp overlapping_delta_timestamp expiration_date_timestamp : Int)
    (status_code : Int) (fs : FS) : FS :=
  let name := sanitize crl_file
  let block := prom_log_format name creation_date_timestamp overlapping_delta_timestamp
    expiration_date_timestamp status_code
  if fs.promDir then
    { fs with promFile := some (fs.promFile.getD "" ++ block) }
  else
    { fs with promDir := true, promFile := some block }

/-- The block appended per `write_log` call (the f-string of the source; the
`datetime.now()` wall-clock rendering is abstracted as the `wall` string). -/
def log_format (http_path log_content : String) (status_code : Int) (wall : String) : String :=
  "\n" ++ http_path ++ ":\n---- " ++ log_content ++ "\n---- status code: " ++
  toString status_code ++ "\n---- time " ++ wall ++ "\n"

/-- `write_log` from the source: append with `open(path, 'a')`; on
`FileNotFoundError` (parent directory missing) create the directory and append
to the then-fresh file. -/
def write_log (http_path log_content : String) (status_code : Int) (wall : String)
    (fs : FS) : FS :=
  let entry := log_format http_path log_content status_code wall
  if fs.logDir then
    { fs with logFile := some (fs.logFile.getD "" ++ entry) }
  else
    { fs with logDir := true, logFile := some entry }

/-- `generate_windows_events` from the source: map the status code to a
severity (1 and 5 are informational, 2 is a warning, 3/4/6/10 and anything
else are errors) and append one event with the status code as event ID. -/
def generate_windows_events (log_content : String) (status_code : Int) (fs : FS) : FS :=
  let event_type :=
    if status_code = 1 ∨ status_code = 5 then EvType.info
    else if status_code = 2 then EvType.warning
    else if status_code = 3 ∨ status_code = 4 ∨ status_code = 6 ∨ status_code = 10 then
      EvType.error
    else EvType.error
  { fs with events := fs.events ++ [(status_code, event_type, log_content)] }

/-- The local-variable environment of `validate_crl` at the shared sink tail
(source lines 218-228).  A field is `none` when the Python local of the same
name is unbound on the path that reached the tail. -/
structure Env where
  crl_status : Option Int
  log_message : Option String
  creation_date : Option Int
  overlapping_delta : Option Int
  expiration_date : Option Int
deriving DecidableEq

/-- Message of the status-1 branch (source line 190). -/
def valid_message (crl_name : String) (overlapping_delta : Int) : String :=
  "CRL \x27" ++ crl_name ++ "\x27 is VALID, and is fresh until " ++
    toString overlapping_delta ++ "."

/-- Message of the status-2 branch (source line 199). -/
def overlapping_message (crl_name : String) (expiration_date : Int) : String :=
  "CRL \x27" ++ crl_name ++ "\x27 entered OVERLAPPING STATE, and will expire at " ++
    toString expiration_date

/-- Message of the status-3 branch (source line 208). -/
def expired_message (crl_name : String) (expiration_date : Int) : String :=
  "CRL \x27" ++ crl_name ++ "\x27 is EXPIRED since " ++ toString expiration_date

/-- The environment left by the `else` fallback branch (source lines 214-216):
`crl_status = 10` is assigned, `log_message` is not. -/
def fallbackEnv (creation_date overlapping_delta expiration_date : Int) : Env :=
  ⟨some 10, none, some creation_date, some overlapping_delta, some expiration_date⟩

/-- The if/elif/elif/else chain of `validate_crl` on the successful-fetch path
(source lines 188-216), as a function from the comparison inputs to the
environment it leaves for the sink tail. -/
def classifyEnv (crl_name : String) (current_date overlapping_delta expiration_date
    creation_date : Int) : Env :=
  if current_date ≤ overlapping_delta then
    ⟨some 1, some (valid_message crl_name overlapping_delta),
      some creation_date, some overlapping_delta, some expiration_date⟩
  else if overlapping_delta < current_date ∧ current_date ≤ expiration_date then
    ⟨some 2, some (overlapping_message crl_name expiration_date),
      some creation_date, some overlapping_delta, some expiration_date⟩
  else if expiration_date < current_date then
    ⟨some 3, some (expired_message crl_name expiration_date),
      some creation_date, some overlapping_delta, some expiration_date⟩
  else
    fallbackEnv creation_date overlapping_delta expiration_date

/-- Overlap-date derivation (source lines 179-183): the vendor Next Publish
extension value when present, else `next_update - timedelta(days=3)`
(259200 seconds). -/
def derive_overlapping_delta (next_publish : Option Int) (expiration_date : Int) : Int :=
  match next_publish with
  | some v => v
  | none => expiration_date - 259200

/-- The shared sink tail of `validate_crl` (source lines 218-228): log write,
metrics reset, metrics write, event report, in that order, with Python's
left-to-right evaluation of call arguments.  Referencing an unbound local
(`log_message` on the fallback path; the three date variables on the
unreachable path) raises `NameError` at that point, so later sinks are not
attempted. -/
def sink_tail (full_path crl_name : String) (e : Env) (wall : String) (fs : FS) :
    FS × List SinkOp × Option PyErr :=
  match e.log_message with
  | none => (fs, [], some PyErr.nameError)
  | some msg =>
    match e.crl_status with
    | none => (fs, [], some PyErr.nameError)
    | some st =>
      let fs1 := write_log full_path msg st wall fs
      let fs2 := clear_PROM_log fs1
      match e.creation_date, e.overlapping_delta, e.expiration_date with
      | some c, some o, some ex =>
        let fs3 := write_PROM_log crl_name (datetime_to_unix c) (datetime_to_unix o)
          (datetime_to_unix ex) st fs2
        let fs4 := generate_windows_events msg st fs3
        (fs4, [SinkOp.logWrite, SinkOp.promClear, SinkOp.promWrite, SinkOp.eventReport], none)
      | _, _, _ =>
        (fs2, [SinkOp.logWrite, SinkOp.promClear], some PyErr.nameError)

/-- Everything a run produces: the classifier environment, the final
filesystem state, the trace of externally visible steps, and the exception
(if any) that aborted the run. -/
structure RunResult where
  env : Env
  fs : FS
  ops : List SinkOp
  exc : Option PyErr
deriving DecidableEq

/-- `validate_crl` from the source: build the URL, fetch (collaborator input
`httpStatus`), branch on non-200 (status 4, extra log write, dates unbound)
or decode (collaborator input `crl`) and classify, then run the sink tail. -/
def validate_crl (cdp_server path_type crl_name : String) (httpStatus : Int)
    (crl : CRLData) (current_date : Int) (wall : String) (fs : FS) : RunResult :=
  let full_path := "https://" ++ cdp_server ++ "/" ++ path_type ++ "/" ++ crl_name
  if httpStatus ≠ 200 then
    let fs1 := write_log full_path "CRL is unreachable" httpStatus wall fs
    let e : Env := ⟨some 4, some "CRL is UNREACHABLE.", none, none, none⟩
    let t := sink_tail full_path crl_name e wall fs1
    ⟨e, t.1, SinkOp.fetch :: SinkOp.logWrite :: t.2.1, t.2.2⟩
  else
    let creation_date := crl.last_update
    let expiration_date := crl.next_update
    let overlapping_delta := derive_overlapping_delta crl.next_publish expiration_date
    let e := classifyEnv crl_name current_date overlapping_delta expiration_date creation_date
    let t := sink_tail full_path crl_name e wall fs
    ⟨e, t.1, SinkOp.fetch :: SinkOp.decode :: t.2.1, t.2.2⟩

/-- A pristine starting state: neither sink directory nor file exists, no
events reported yet. -/
def fs0 : FS := ⟨none, false, none, false, []⟩

/-- A warm starting state: both sink directories exist, the log file is empty
and the metrics file still holds a stale entry from an earlier run. -/
def fs1 : FS := ⟨some "", true, some "stale", true, []⟩

theorem classifyEnv_overlapping_delta (crl_name : String) (now ov exp cr : Int) :
    (classifyEnv crl_name now ov exp cr).overlapping_delta = some ov := by
  simp only [classifyEnv, fallbackEnv]
  split_ifs <;> rfl

/-- C1: for every run in which the fetch succeeded, the classifier assigns the
status code by exact precedence over totally ordered UTC datetimes: status 1
if `now ≤ overlap_date` (VALID message), else status 2 if
`overlap_date < now ≤ expiration_date` (OVERLAPPING message), else status 3 if
`now > expiration_date` (EXPIRED message). -/
theorem classifier_precedence (crl_name : String) (now ov exp cr : Int) :
    (now ≤ ov → classifyEnv crl_name now ov exp cr =
      ⟨some 1, some (valid_message crl_name ov), some cr, some ov, some exp⟩)
  ∧ (ov < now → now ≤ exp → classifyEnv crl_name now ov exp cr =
      ⟨some 2, some (overlapping_message crl_name exp), some cr, some ov, some exp⟩)
  ∧ (ov < now → exp < now → classifyEnv crl_name now ov exp cr =
      ⟨some 3, some (expired_message crl_name exp), some cr, some ov, some exp⟩) := by
  refine ⟨fun h1 => ?_, fun h1 h2 => ?_, fun h1 h2 => ?_⟩
  · simp only [classifyEnv]
    rw [if_pos h1]
  · simp only [classifyEnv]
    rw [if_neg (by omega), if_pos ⟨h1, h2⟩]
  · simp only [classifyEnv]
    rw [if_neg (by omega), if_neg (fun hc => absurd hc.2 (by omega)), if_pos h2]

/-- Witness for C1: a concrete fresh CRL lands in the status-1 branch. -/
theorem classifier_precedence_witness :
    classifyEnv "yK5nPhtHKQs.crl" 100 200 400 50 =
      ⟨some 1, some (valid_message "yK5nPhtHKQs.crl" 200), some 50, some 200, some 400⟩ :=
  (classifier_precedence "yK5nPhtHKQs.crl" 100 200 400 50).1 (by decide)

/-- C3 counterexample: with inverted dates (`expiration_date < overlap_date`)
and `now` beyond both, the code returns status 3 — not status 10 as claimed;
the fallback branch is not taken. -/
theorem inverted_dates_counterexample :
    ((0 : Int) < 10 ∧ ¬ ((20 : Int) ≤ 10) ∧ ¬ ((20 : Int) ≤ 0))
  ∧ (classifyEnv "x" 20 10 0 0).crl_status = some 3
  ∧ (classifyEnv "x" 20 10 0 0).crl_status ≠ some 10 := by
  decide

/-- C3 amended: over totally ordered datetimes the three orderings are
exhaustive, so the status-10 fallback branch is unreachable: the classifier
never yields status 10 for any input, inverted orderings included. -/
theorem classify_never_status10 (crl_name : String) (now ov exp cr : Int) :
    (classifyEnv crl_name now ov exp cr).crl_status ≠ some 10 := by
  intro h
  simp only [classifyEnv, fallbackEnv] at h
  split_ifs at h with h1 h2 h3 <;> simp at h
  exact h2 ⟨by omega, by omega⟩

/-- C4: for every successfully decoded CRL without the vendor Next Publish
extension, the derived overlap date is exactly `expiration_date` minus 3 days
(259200 seconds). -/
theorem overlap_fallback (cdp_server path_type crl_name : String) (crl : CRLData)
    (now : Int) (wall : String) (fs : FS) (h : crl.next_publish = none) :
    (validate_crl cdp_server path_type crl_name 200 crl now wall fs).env.overlapping_delta
      = some (crl.next_update - 3 * 86400) := by
  simp [validate_crl, h, derive_overlapping_delta, classifyEnv_overlapping_delta]

/-- Witness for C4: a concrete extension-less CRL derives
`next_update - 259200` as its overlap date. -/
theorem overlap_fallback_witness :
    (validate_crl "c.pki.goog" "we2" "yK5nPhtHKQs.crl" 200
      (⟨1000, 400000, none⟩ : CRLData) 100 "t" fs0).env.overlapping_delta
      = some ((400000 : Int) - 3 * 86400) :=
  overlap_fallback "c.pki.goog" "we2" "yK5nPhtHKQs.crl" ⟨1000, 400000, none⟩ 100 "t" fs0 rfl

/-- C10: the status-10 fallback branch assigns `crl_status = 10` but no
`log_message`, so the sink tail raises `NameError` on the unbound name at the
very first sink call: the run aborts with the filesystem untouched and no sink
persists the status-10 result. -/
theorem fallback_branch_raises (full_path crl_name wall : String) (cr ov exp : Int)
    (fs : FS) :
    (fallbackEnv cr ov exp).crl_status = some 10
  ∧ (fallbackEnv cr ov exp).log_message = none
  ∧ sink_tail full_path crl_name (fallbackEnv cr ov exp) wall fs
      = (fs, [], some PyErr.nameError) :=
  ⟨rfl, rfl, rfl⟩

/-- C2: a fetch outcome other than HTTP 200 is classified as status 4
regardless of any date values, and the run performs no CRL decoding. -/
theorem unreachable_status4 (cdp_server path_type crl_name : String) (httpStatus : Int)
    (crl : CRLData) (now : Int) (wall : String) (fs : FS) (h : httpStatus ≠ 200) :
    (validate_crl cdp_server path_type crl_name httpStatus crl now wall fs).env.crl_status
      = some 4
  ∧ SinkOp.decode ∉ (validate_crl cdp_server path_type crl_name httpStatus crl now wall fs).ops := by
  simp [validate_crl, sink_tail, h]

/-- Witness for C2: a concrete 404 fetch yields status 4 with no decode step. -/
theorem unreachable_status4_witness :
    (validate_crl "c.pki.goog" "we2" "yK5nPhtHKQs.crl" 404 (⟨0, 0, none⟩ : CRLData)
        0 "t" fs0).env.crl_status = some 4
  ∧ SinkOp.decode ∉ (validate_crl "c.pki.goog" "we2" "yK5nPhtHKQs.crl" 404
        (⟨0, 0, none⟩ : CRLData) 0 "t" fs0).ops :=
  unreachable_status4 "c.pki.goog" "we2" "yK5nPhtHKQs.crl" 404 ⟨0, 0, none⟩ 0 "t" fs0
    (by decide)

theorem classifyEnv_shape (crl_name : String) (now ov exp cr : Int) :
    ∃ st msg, classifyEnv crl_name now ov exp cr
      = ⟨some st, some msg, some cr, some ov, some exp⟩ := by
  simp only [classifyEnv, fallbackEnv]
  split_ifs with h1 h2 h3
  · exact ⟨1, _, rfl⟩
  · exact ⟨2, _, rfl⟩
  · exact ⟨3, _, rfl⟩
  · exact (h2 ⟨by omega, by omega⟩).elim

/-- C5 counterexample: on a non-200 fetch the metrics write fails with
`NameError` (unbound date variables), and the event sink — a later sink — is
never attempted: a failure in one sink does prevent the later ones. -/
theorem sink_isolation_counterexample :
    (validate_crl "c.pki.goog" "we2" "yK5nPhtHKQs.crl" 404 (⟨0, 0, none⟩ : CRLData)
        0 "t" fs1).exc = some PyErr.nameError
  ∧ SinkOp.promWrite ∉ (validate_crl "c.pki.goog" "we2" "yK5nPhtHKQs.crl" 404
        (⟨0, 0, none⟩ : CRLData) 0 "t" fs1).ops
  ∧ SinkOp.eventReport ∉ (validate_crl "c.pki.goog" "we2" "yK5nPhtHKQs.crl" 404
        (⟨0, 0, none⟩ : CRLData) 0 "t" fs1).ops := by
  decide

/-- C5 amended: the sinks are driven sequentially in the fixed order log,
metrics reset, metrics write, event, with no exception isolation: a
successful-fetch run performs all four steps in order, but on the non-200
path the run aborts with `NameError` at the metrics write and the later event
sink is not attempted. -/
theorem sinks_order_no_isolation :
    (∀ (cdp_server path_type crl_name : String) (crl : CRLData) (now : Int)
        (wall : String) (fs : FS),
      (validate_crl cdp_server path_type crl_name 200 crl now wall fs).ops =
        [SinkOp.fetch, SinkOp.decode, SinkOp.logWrite, SinkOp.promClear,
          SinkOp.promWrite, SinkOp.eventReport]
      ∧ (validate_crl cdp_server path_type crl_name 200 crl now wall fs).exc = none)
  ∧ (∀ (cdp_server path_type crl_name : String) (httpStatus : Int) (crl : CRLData)
        (now : Int) (wall : String) (fs : FS),
      httpStatus ≠ 200 →
      (validate_crl cdp_server path_type crl_name httpStatus crl now wall fs).ops =
        [SinkOp.fetch, SinkOp.logWrite, SinkOp.logWrite, SinkOp.promClear]
      ∧ (validate_crl cdp_server path_type crl_name httpStatus crl now wall fs).exc
          = some PyErr.nameError
      ∧ SinkOp.eventReport ∉
          (validate_crl cdp_server path_type crl_name httpStatus crl now wall fs).ops) := by
  constructor
  · intro cdp_server path_type crl_name crl now wall fs
    obtain ⟨st, msg, hE⟩ := classifyEnv_shape crl_name now
      (derive_overlapping_delta crl.next_publish crl.next_update) crl.next_update
      crl.last_update
    simp [validate_crl, sink_tail, hE]
  · intro cdp_server path_type crl_name httpStatus crl now wall fs h
    simp [validate_crl, sink_tail, h]

/-- Witness for C5 amended: a concrete successful run drives all four steps
in order, and a concrete 404 run aborts before the event sink. -/
theorem sinks_order_no_isolation_witness :
    ((validate_crl "c.pki.goog" "we2" "yK5nPhtHKQs.crl" 200
        (⟨1000, 400000, none⟩ : CRLData) 100 "t" fs1).ops =
      [SinkOp.fetch, SinkOp.decode, SinkOp.logWrite, SinkOp.promClear,
        SinkOp.promWrite, SinkOp.eventReport]
    ∧ (validate_crl "c.pki.goog" "we2" "yK5nPhtHKQs.crl" 200
        (⟨1000, 400000, none⟩ : CRLData) 100 "t" fs1).exc = none)
  ∧ ((validate_crl "c.pki.goog" "we2" "yK5nPhtHKQs.crl" 503
        (⟨1000, 400000, none⟩ : CRLData) 100 "t" fs1).ops =
      [SinkOp.fetch, SinkOp.logWrite, SinkOp.logWrite, SinkOp.promClear]
    ∧ (validate_crl "c.pki.goog" "we2" "yK5nPhtHKQs.crl" 503
        (⟨1000, 400000, none⟩ : CRLData) 100 "t" fs1).exc = some PyErr.nameError
    ∧ SinkOp.eventReport ∉ (validate_crl "c.pki.goog" "we2" "yK5nPhtHKQs.crl" 503
        (⟨1000, 400000, none⟩ : CRLData) 100 "t" fs1).ops) :=
  ⟨sinks_order_no_isolation.1 "c.pki.goog" "we2" "yK5nPhtHKQs.crl" ⟨1000, 400000, none⟩
      100 "t" fs1,
    sinks_order_no_isolation.2 "c.pki.goog" "we2" "yK5nPhtHKQs.crl" 503
      ⟨1000, 400000, none⟩ 100 "t" fs1 (by decide)⟩

/-- C6 counterexample: a concrete 404 run (warm directories, stale metrics
entry) ends with status 4 and an UNREACHABLE log entry, but the metrics file
is left empty — it contains no `crl_status` gauge line at all, contrary to
the claimed `crl_status 4`-only content. -/
theorem unreachable_metrics_counterexample :
    (validate_crl "c.pki.goog" "we2" "yK5nPhtHKQs.crl" 404 (⟨0, 0, none⟩ : CRLData)
        0 "t" fs1).env.crl_status = some 4
  ∧ occurs "UNREACHABLE".toList
      (((validate_crl "c.pki.goog" "we2" "yK5nPhtHKQs.crl" 404 (⟨0, 0, none⟩ : CRLData)
        0 "t" fs1).fs.logFile.getD "").toList) = true
  ∧ (validate_crl "c.pki.goog" "we2" "yK5nPhtHKQs.crl" 404 (⟨0, 0, none⟩ : CRLData)
        0 "t" fs1).fs.promFile = some ""
  ∧ occurs "crl_status".toList
      (((validate_crl "c.pki.goog" "we2" "yK5nPhtHKQs.crl" 404 (⟨0, 0, none⟩ : CRLData)
        0 "t" fs1).fs.promFile.getD "x").toList) = false := by
  decide

/-- C6 amended: on a non-200 fetch (with both sink directories present) the
end state is: status 4, the log extended by the two UNREACHABLE entries (one
with the transport status code, one with status 4), the metrics file left
empty — the run raises `NameError` on the unbound date variables before any
gauge line is written — and the event sink skipped. -/
theorem unreachable_end_state (cdp_server path_type crl_name : String) (httpStatus : Int)
    (crl : CRLData) (now : Int) (wall : String) (fs : FS)
    (h : httpStatus ≠ 200) (hlog : fs.logDir = true) (hprom : fs.promDir = true) :
    (validate_crl cdp_server path_type crl_name httpStatus crl now wall fs).env.crl_status
      = some 4
  ∧ (validate_crl cdp_server path_type crl_name httpStatus crl now wall fs).fs.logFile =
      some ((fs.logFile.getD "" ++
        log_format ("https://" ++ cdp_server ++ "/" ++ path_type ++ "/" ++ crl_name)
          "CRL is unreachable" httpStatus wall) ++
        log_format ("https://" ++ cdp_server ++ "/" ++ path_type ++ "/" ++ crl_name)
          "CRL is UNREACHABLE." 4 wall)
  ∧ (validate_crl cdp_server path_type crl_name httpStatus crl now wall fs).fs.promFile
      = some ""
  ∧ (validate_crl cdp_server path_type crl_name httpStatus crl now wall fs).exc
      = some PyErr.nameError := by
  simp [validate_crl, sink_tail, write_log, clear_PROM_log, h, hlog, hprom]

/-- Witness for C6 amended: the concrete 404 run instantiating the end-state
theorem. -/
theorem unreachable_end_state_witness :
    (validate_crl "c.pki.goog" "we2" "yK5nPhtHKQs.crl" 404 (⟨0, 0, none⟩ : CRLData)
        0 "t" fs1).env.crl_status = some 4
  ∧ (validate_crl "c.pki.goog" "we2" "yK5nPhtHKQs.crl" 404 (⟨0, 0, none⟩ : CRLData)
        0 "t" fs1).fs.logFile =
      some ((fs1.logFile.getD "" ++
        log_format ("https://" ++ "c.pki.goog" ++ "/" ++ "we2" ++ "/" ++ "yK5nPhtHKQs.crl")
          "CRL is unreachable" 404 "t") ++
        log_format ("https://" ++ "c.pki.goog" ++ "/" ++ "we2" ++ "/" ++ "yK5nPhtHKQs.crl")
          "CRL is UNREACHABLE." 4 "t")
  ∧ (validate_crl "c.pki.goog" "we2" "yK5nPhtHKQs.crl" 404 (⟨0, 0, none⟩ : CRLData)
        0 "t" fs1).fs.promFile = some ""
  ∧ (validate_crl "c.pki.goog" "we2" "yK5nPhtHKQs.crl" 404 (⟨0, 0, none⟩ : CRLData)
        0 "t" fs1).exc = some PyErr.nameError :=
  unreachable_end_state "c.pki.goog" "we2" "yK5nPhtHKQs.crl" 404 ⟨0, 0, none⟩ 0 "t" fs1
    (by decide) rfl rfl

/-- C7 counterexample: when the metrics parent directory does not exist, the
first reset only creates the directory — the metrics file is still absent
afterwards, not empty as claimed. -/
theorem reset_missing_dir_counterexample :
    (clear_PROM_log fs0).promFile ≠ some ""
  ∧ (clear_PROM_log fs0).promFile = none
  ∧ (clear_PROM_log fs0).promDir = true := by
  decide

/-- C7 amended: when the parent directory already exists, reset truncates the
metrics file to empty and is idempotent; when the directory is missing, reset
does not raise but only creates the parent path, leaving the file untouched
(absent), and only the second reset produces the empty file. -/
theorem reset_amended (fs : FS) :
    (fs.promDir = true →
      (clear_PROM_log fs).promFile = some ""
      ∧ (clear_PROM_log (clear_PROM_log fs)).promFile = some "")
  ∧ (fs.promDir = false →
      (clear_PROM_log fs).promFile = fs.promFile
      ∧ (clear_PROM_log fs).promDir = true
      ∧ (clear_PROM_log (clear_PROM_log fs)).promFile = some "") := by
  constructor <;> intro h <;> simp [clear_PROM_log, h]

/-- Witness for C7 amended: concrete warm and pristine states instantiating
both halves of the reset theorem. -/
theorem reset_amended_witness :
    ((clear_PROM_log fs1).promFile = some ""
      ∧ (clear_PROM_log (clear_PROM_log fs1)).promFile = some "")
  ∧ ((clear_PROM_log fs0).promFile = none
      ∧ (clear_PROM_log fs0).promDir = true
      ∧ (clear_PROM_log (clear_PROM_log fs0)).promFile = some "") :=
  ⟨(reset_amended fs1).1 rfl, (reset_amended fs0).2 rfl⟩

theorem string_empty_append (s : String) : "" ++ s = s := rfl

/-- C8: after two successive full metrics runs (reset then write, twice), the
metrics file holds exactly the second run's block — the four gauge lines keyed
by the second run's sanitized name — and nothing from the first run. -/
theorem metrics_replacement (fs : FS) (n1 : String) (c1 o1 e1 s1 : Int)
    (n2 : String) (c2 o2 e2 s2 : Int) :
    (write_PROM_log n2 c2 o2 e2 s2 (clear_PROM_log
      (write_PROM_log n1 c1 o1 e1 s1 (clear_PROM_log fs)))).promFile
      = some (prom_log_format (sanitize n2) c2 o2 e2 s2) := by
  by_cases h : fs.promDir <;>
    simp [clear_PROM_log, write_PROM_log, h, string_empty_append]

theorem isPre_iff (pat : List Char) : ∀ s : List Char,
    isPre pat s = true ↔ ∃ t, s = pat ++ t := by
  induction pat with
  | nil =>
    intro s
    simp [isPre]
  | cons a ps ih =>
    intro s
    cases s with
    | nil =>
      simp [isPre]
    | cons b ss =>
      simp only [isPre, Bool.and_eq_true, beq_iff_eq, ih ss, List.cons_append,
        List.cons.injEq]
      constructor
      · rintro ⟨hab, t, ht⟩
        exact ⟨t, hab.symm, ht⟩
      · rintro ⟨t, hba, ht⟩
        exact ⟨hba.symm, t, ht⟩

theorem isPre_self (l : List Char) : isPre l l = true :=
  (isPre_iff l l).mpr ⟨[], by simp⟩

theorem pyReplace_no_occurrence (pat : List Char) :
    ∀ s : List Char, occurs pat s = false → pyReplace pat s = s := by
  intro s
  induction s with
  | nil =>
    intro _
    exact pyReplace_nil pat
  | cons c rest ih =>
    intro h
    simp only [occurs, Bool.or_eq_false_iff] at h
    rw [pyReplace_cons, h.1, ih h.2]
    simp

theorem pyReplace_strip (pat : List Char) (hne : pat ≠ []) :
    ∀ stem : List Char, occurs pat (stem ++ pat.dropLast) = false →
      pyReplace pat (stem ++ pat) = stem := by
  intro stem
  induction stem with
  | nil =>
    intro _
    cases pat with
    | nil => exact absurd rfl hne
    | cons p ps =>
      simp only [List.nil_append]
      have hd : List.drop ((p :: ps).length - 1) ps = [] := by
        simp [List.length_cons]
      rw [pyReplace_cons, if_pos (isPre_self (p :: ps)), hd]
      exact pyReplace_nil (p :: ps)
  | cons a st ih =>
    intro h
    simp only [List.cons_append] at h ⊢
    simp only [occurs, Bool.or_eq_false_iff] at h
    rw [pyReplace_cons, if_neg, ih h.2]
    intro hp
    obtain ⟨t, ht⟩ := (isPre_iff pat _).mp hp
    have htne : t ≠ [] := by
      intro h0
      subst h0
      have hl := congrArg List.length ht
      simp at hl
      omega
    have hdl : a :: (st ++ pat.dropLast) = pat ++ t.dropLast := by
      have h1 : ((a :: st) ++ pat).dropLast = (pat ++ t).dropLast := by
        rw [List.cons_append, ht]
      rw [List.dropLast_append_of_ne_nil _ hne, List.dropLast_append_of_ne_nil _ htne]
        at h1
      simpa using h1
    have : isPre pat (a :: (st ++ pat.dropLast)) = true :=
      (isPre_iff pat _).mpr ⟨t.dropLast, hdl⟩
    rw [h.1] at this
    exact Bool.false_ne_true this

/-- C9 counterexample: `"v.crl2"` does not end with the `.crl` extension, yet
the sanitization alters it to `"v2"` — `replace` removes every occurrence of
`".crl"`, not only a trailing extension. -/
theorem sanitize_counterexample :
    crlExt.isSuffixOf "v.crl2".toList = false
  ∧ sanitize "v.crl2" = "v2"
  ∧ sanitize "v.crl2" ≠ "v.crl2" := by
  decide

/-- C9 amended: the sanitization removes every left-to-right occurrence of the
substring `".crl"`: a name containing no occurrence is unchanged, and a name
whose only occurrence is the trailing extension has exactly that extension
stripped — but an occurrence elsewhere in the name is removed as well. -/
theorem sanitize_amended :
    (∀ s : String, occurs crlExt s.toList = false → sanitize s = s)
  ∧ (∀ stem : List Char, occurs crlExt (stem ++ crlExt.dropLast) = false →
      sanitize (String.mk (stem ++ crlExt)) = String.mk stem) := by
  constructor
  · intro s h
    unfold sanitize
    rw [pyReplace_no_occurrence crlExt s.toList h]
    cases s
    rfl
  · intro stem h
    unfold sanitize
    rw [show (String.mk (stem ++ crlExt)).toList = stem ++ crlExt from rfl,
      pyReplace_strip crlExt (by decide) stem h]

/-- Witness for C9 amended: the repository's own CRL name has its extension
stripped, and the extension-less name is left unchanged. -/
theorem sanitize_amended_witness :
    sanitize "yK5nPhtHKQs" = "yK5nPhtHKQs" ∧ sanitize "yK5nPhtHKQs.crl" = "yK5nPhtHKQs" :=
  ⟨sanitize_amended.1 "yK5nPhtHKQs" (by decide),
   sanitize_amended.2 "yK5nPhtHKQs".toList (by decide)⟩
